import Mathlib

/-!
Verification of `src/helpers/sprite_into_tiles.py`.

The script slices a 1278×426 sprite sheet (6 columns × 2 rows of 213×213
cells) into 12 tile images named `{color}_{piece}.png`.  The pure parts
(the `name` function and the crop-rectangle arithmetic of the nested loop)
are embedded directly from the source.  The effectful module body calls
`os.mkdir`, `PIL.Image.open`, `Image.crop` and `Image.save`, whose code is
not part of this repository; their failure behaviour is modelled from the
spec's failure-semantics section.
-/

namespace SpriteIntoTiles

/-- Colour part of `name` (line 5 of the source):
`color = "white" if idx < 6 else "black"`. -/
def colorOf (idx : Int) : String :=
  if idx < 6 then "white" else "black"

/-- Piece part of `name` (lines 6–14 of the source): `piece = idx % 6`
followed by a `match` on the literals 0–5.  Python's `match` on integer
literals is a sequential equality test, and Python's `%` with a positive
modulus agrees with Lean's `Int` euclidean `%`; the initial `name = ""`
survives when no case matches. -/
def pieceOf (idx : Int) : String :=
  let piece := idx % 6
  if piece = 0 then "king"
  else if piece = 1 then "queen"
  else if piece = 2 then "bishop"
  else if piece = 3 then "knight"
  else if piece = 4 then "rook"
  else if piece = 5 then "pawn"
  else ""

/-- `name(idx)` from the source: `f"{color}_{name}"`. -/
def name (idx : Int) : String :=
  colorOf idx ++ "_" ++ pieceOf idx

/-- The cell edge length `l = 213` (line 20 of the source). -/
def l : Nat := 213

/-- A PIL crop box `(x0, y0, x1, y1)`: left/upper inclusive,
right/lower exclusive. -/
structure Box where
  x0 : Nat
  y0 : Nat
  x1 : Nat
  y1 : Nat
deriving DecidableEq

/-- The pixels a crop box covers: `x0 ≤ px < x1` and `y0 ≤ py < y1`. -/
def Box.covers (b : Box) (px py : Nat) : Prop :=
  b.x0 ≤ px ∧ px < b.x1 ∧ b.y0 ≤ py ∧ py < b.y1

instance (b : Box) (px py : Nat) : Decidable (b.covers px py) := by
  unfold Box.covers; infer_instance

/-- The nested loop of the module body (lines 19–28): for `y in range(2)`,
`x in range(6)`, compute `x0 = x*l`, `y0 = y*l`, `x1 = x0+l`, `y1 = y0+l`,
emit the pair (output filename `tiles/{name(i)}.png`, crop box), and
increment the counter `i` that started at 0. -/
def outputs : List (String × Box) :=
  (List.foldl
    (fun p y =>
      List.foldl
        (fun q x =>
          (q.1 ++ [("tiles/" ++ name q.2 ++ ".png",
              Box.mk (x * l) (y * l) (x * l + l) (y * l + l))],
           q.2 + 1))
        p (List.range 6))
    (([] : List (String × Box)), (0 : Int)) (List.range 2)).1

/-- The filenames written, in write order. -/
def writtenNames : List String := outputs.map Prod.fst

/-- The crop boxes, in visit order. -/
def tileBoxes : List Box := outputs.map Prod.snd

/-- Spec-side naming data: the fixed piece order
king, queen, bishop, knight, rook, pawn. -/
def pieceOrder : List String :=
  ["king", "queen", "bishop", "knight", "rook", "pawn"]

/-- Spec-side name of linear index `i`: colour "white" for 0–5, "black"
for 6–11, piece via `i % 6` in the fixed order, joined as
`{color}_{piece}`. -/
def specName (i : Nat) : String :=
  (if i < 6 then "white" else "black") ++ "_" ++ pieceOrder.getD (i % 6) ""

/-- Spec-side crop box of linear index `i`: top-left corner
`(column × 213, row × 213)`, side 213, with `row = i / 6`, `column = i % 6`. -/
def specBox (i : Nat) : Box :=
  Box.mk ((i % 6) * 213) ((i / 6) * 213) ((i % 6) * 213 + 213) ((i / 6) * 213 + 213)

/-- Spec-side file list: `tiles/{color}_{piece}.png` for colour in
{white, black} and piece in the fixed order. -/
def specFiles : List String :=
  pieceOrder.map (fun p => "tiles/white_" ++ p ++ ".png") ++
    pieceOrder.map (fun p => "tiles/black_" ++ p ++ ".png")

/-- Outcome of one run of the script: whether it finished without error,
whether the `tiles/` directory got created, and the files written. -/
structure Outcome where
  ok : Bool
  dirCreated : Bool
  written : List String
deriving DecidableEq

/-- Modelled from the spec: `Image.crop(...).save(...)` is PIL code, absent
from `src/`; per the spec's failure semantics the run "fails … if any crop
region exceeds image bounds" and "terminates on first error".  `saveAll`
processes the tiles in order against an image of size `w × h`, stopping at
the first out-of-bounds crop. -/
def saveAll (w h : Nat) : List (String × Box) → List String → Outcome
  | [], acc => Outcome.mk true true acc
  | fb :: rest, acc =>
    if fb.2.x1 ≤ w ∧ fb.2.y1 ≤ h then saveAll w h rest (acc ++ [fb.1])
    else Outcome.mk false true acc

/-- Modelled from the spec: `os.mkdir` and `PIL.Image.open` are absent from
`src/`; per the spec's failure semantics the run "fails if the output
directory already exists …, if the source image cannot be opened", and the
module body (lines 17–18) performs `mkdir("tiles/")` before
`Image.open("sprites.png")`.  `sprite` is `none` when the image cannot be
opened, `some (w, h)` its pixel dimensions otherwise. -/
def run (tilesDirExists : Bool) (sprite : Option (Nat × Nat)) : Outcome :=
  if tilesDirExists then Outcome.mk false false []
  else
    match sprite with
    | none => Outcome.mk false true []
    | some wh => saveAll wh.1 wh.2 outputs []

/-! ### Helper lemmas -/

/-- Crop box of visit position `i`, via `getD`. -/
lemma tileBoxes_getD :
    ∀ i : Nat, i < 12 → tileBoxes.getD i (Box.mk 0 0 0 0) = specBox i := by
  decide

/-- If every crop box fits in the image, `saveAll` writes every file. -/
lemma saveAll_ok (w h : Nat) :
    ∀ (ts : List (String × Box)) (acc : List String),
      (∀ fb ∈ ts, fb.2.x1 ≤ w ∧ fb.2.y1 ≤ h) →
      saveAll w h ts acc = Outcome.mk true true (acc ++ ts.map Prod.fst) := by
  intro ts
  induction ts with
  | nil => intro acc _; simp [saveAll]
  | cons fb rest ih =>
    intro acc hall
    have hfb := hall fb (List.mem_cons_self _ _)
    have hrest : ∀ x ∈ rest, x.2.x1 ≤ w ∧ x.2.y1 ≤ h :=
      fun x hx => hall x (List.mem_cons_of_mem _ hx)
    simp only [saveAll, if_pos hfb, ih (acc ++ [fb.1]) hrest,
      List.map_cons, List.append_assoc, List.singleton_append]

/-- If `saveAll` finishes without error, every crop box fit in the image. -/
lemma saveAll_bounds (w h : Nat) :
    ∀ (ts : List (String × Box)) (acc : List String),
      (saveAll w h ts acc).ok = true →
      ∀ fb ∈ ts, fb.2.x1 ≤ w ∧ fb.2.y1 ≤ h := by
  intro ts
  induction ts with
  | nil => intro acc _ fb hfb; cases hfb
  | cons hd rest ih =>
    intro acc hok fb hfb
    by_cases hhd : hd.2.x1 ≤ w ∧ hd.2.y1 ≤ h
    · rcases List.mem_cons.mp hfb with hfb | hfb
      · exact hfb ▸ hhd
      · exact ih (acc ++ [hd.1]) (by simpa [saveAll, if_pos hhd] using hok) fb hfb
    · simp [saveAll, if_neg hhd] at hok

/-! ### Claims -/

/-- C1: for every index `i` in 0..11, `name i` equals `{color}_{piece}`
with colour "white" for `i < 6`, "black" for `6 ≤ i ≤ 11`, and the piece
given by `i % 6` in the fixed order king, queen, bishop, knight, rook,
pawn; in particular the four quoted values hold. -/
theorem name_matches_spec :
    (∀ i : Nat, i < 12 → name i = specName i) ∧
      name 0 = "white_king" ∧ name 5 = "white_pawn" ∧
      name 6 = "black_king" ∧ name 11 = "black_pawn" := by
  decide

theorem name_matches_spec_witness : name 7 = specName 7 :=
  name_matches_spec.1 7 (by decide)

/-- C2: a complete run (fresh `tiles/` directory, image at least
1278×426) succeeds and writes exactly the 12 files
`tiles/{color}_{piece}.png`, one per colour/piece combination, each
exactly once (the list of written names has no duplicates). -/
theorem run_writes_twelve_files (w h : Nat) (hw : 1278 ≤ w) (hh : 426 ≤ h) :
    (run false (some (w, h))).ok = true ∧
      (run false (some (w, h))).dirCreated = true ∧
      (run false (some (w, h))).written = specFiles ∧
      specFiles.length = 12 ∧ specFiles.Nodup := by
  have hall : ∀ fb ∈ outputs, fb.2.x1 ≤ w ∧ fb.2.y1 ≤ h := by
    intro fb hfb
    have hbig : ∀ fb ∈ outputs, fb.2.x1 ≤ 1278 ∧ fb.2.y1 ≤ 426 := by decide
    have hbound := hbig fb hfb
    exact ⟨le_trans hbound.1 hw, le_trans hbound.2 hh⟩
  have hrun : run false (some (w, h)) =
      Outcome.mk true true ([] ++ outputs.map Prod.fst) :=
    saveAll_ok w h outputs [] hall
  have hnames : outputs.map Prod.fst = specFiles := by decide
  rw [hrun, hnames]
  refine ⟨rfl, rfl, by simp, by decide, by decide⟩

theorem run_writes_twelve_files_witness :
    (run false (some (1278, 426))).written = specFiles :=
  (run_writes_twelve_files 1278 426 (by decide) (by decide)).2.2.1

/-- C3: the loop produces 12 tiles, and the crop rectangle of linear
index `i` (visited in row-major order) is the square with top-left corner
`((i % 6) × 213, (i / 6) × 213)` and side 213. -/
theorem crop_boxes_match_spec :
    tileBoxes.length = 12 ∧
      ∀ i : Nat, i < 12 → tileBoxes.getD i (Box.mk 0 0 0 0) = specBox i := by
  decide

theorem crop_boxes_match_spec_witness :
    tileBoxes.getD 10 (Box.mk 0 0 0 0) = specBox 10 :=
  crop_boxes_match_spec.2 10 (by decide)

/-- C4: the 12 crop rectangles are each 213×213, pairwise disjoint, and
their union is exactly the pixel region `[0, 1278) × [0, 426)`. -/
theorem crop_boxes_tile_sheet :
    (∀ b ∈ tileBoxes, b.x1 - b.x0 = 213 ∧ b.y1 - b.y0 = 213) ∧
      (∀ i j : Nat, i < 12 → j < 12 → i ≠ j → ∀ px py : Nat,
        ¬((tileBoxes.getD i (Box.mk 0 0 0 0)).covers px py ∧
          (tileBoxes.getD j (Box.mk 0 0 0 0)).covers px py)) ∧
      (∀ px py : Nat,
        (∃ i : Nat, i < 12 ∧ (tileBoxes.getD i (Box.mk 0 0 0 0)).covers px py) ↔
          (px < 1278 ∧ py < 426)) := by
  refine ⟨by decide, ?_, ?_⟩
  · intro i j hi hj hne px py hboth
    rw [tileBoxes_getD i hi, tileBoxes_getD j hj] at hboth
    simp only [Box.covers, specBox] at hboth
    omega
  · intro px py
    constructor
    · rintro ⟨i, hi, hcov⟩
      rw [tileBoxes_getD i hi] at hcov
      simp only [Box.covers, specBox] at hcov
      omega
    · rintro ⟨hx, hy⟩
      refine ⟨(py / 213) * 6 + px / 213, by omega, ?_⟩
      rw [tileBoxes_getD _ (by omega)]
      simp only [Box.covers, specBox]
      omega

theorem crop_boxes_tile_sheet_witness :
    ¬((tileBoxes.getD 0 (Box.mk 0 0 0 0)).covers 100 100 ∧
      (tileBoxes.getD 7 (Box.mk 0 0 0 0)).covers 100 100) :=
  crop_boxes_tile_sheet.2.1 0 7 (by decide) (by decide) (by decide) 100 100

/-- C5: for every `i` in 0..11, `name i` and `name (i + 6)` have the same
piece part (`i % 6 = (i + 6) % 6`), and the colour of `name (i + 6)` is
"black" — the name with "white" swapped to "black" (for `i < 6` the colour
of `name i` is literally "white"). -/
theorem name_shift_swaps_color :
    ∀ i : Nat, i < 12 →
      pieceOf (i + 6) = pieceOf i ∧
        ((i : Int) + 6) % 6 = (i : Int) % 6 ∧
        name (i + 6) = "black" ++ "_" ++ pieceOf i ∧
        name i = colorOf i ++ "_" ++ pieceOf i ∧
        (i < 6 → colorOf i = "white") := by
  decide

theorem name_shift_swaps_color_witness :
    name (4 + 6) = "black" ++ "_" ++ pieceOf 4 :=
  (name_shift_swaps_color 4 (by decide)).2.2.1

/-- C6: if the source image is smaller than 1278×426 (some crop region
exceeds the image bounds), the run does not finish successfully. -/
theorem small_image_fails (w h : Nat) (hsmall : w < 1278 ∨ h < 426) :
    (run false (some (w, h))).ok = false := by
  cases hok : (run false (some (w, h))).ok with
  | false => rfl
  | true =>
    have hrun : (saveAll w h outputs []).ok = true := hok
    have hmem : ("tiles/black_pawn.png", Box.mk 1065 213 1278 426) ∈ outputs := by
      decide
    have hb := saveAll_bounds w h outputs [] hrun _ hmem
    have h1 : (1278 : Nat) ≤ w := hb.1
    have h2 : (426 : Nat) ≤ h := hb.2
    omega

theorem small_image_fails_witness :
    (run false (some (1277, 426))).ok = false :=
  small_image_fails 1277 426 (Or.inl (by decide))

/-- C7: if `tiles/` already exists the run fails at directory creation,
before any image is opened or tile written (no directory created, nothing
written) — so a second run after a successful one fails. -/
theorem existing_dir_fails :
    (∀ s : Option (Nat × Nat), run true s = Outcome.mk false false []) ∧
      (∀ s s' : Option (Nat × Nat),
        (run false s).ok = true → (run true s').ok = false) := by
  exact ⟨fun _ => rfl, fun _ _ _ => rfl⟩

theorem existing_dir_fails_witness :
    (run true none).ok = false :=
  existing_dir_fails.2 (some (1278, 426)) none (by decide)

/-- C8: `name` is injective on 0..11, so the 12 writes target 12 distinct
filenames and no write overwrites an earlier one. -/
theorem name_injective_below_twelve :
    (∀ i : Nat, i < 12 → ∀ j : Nat, j < 12 → name i = name j → i = j) ∧
      writtenNames.Nodup := by
  decide

theorem name_injective_below_twelve_witness :
    writtenNames.Nodup ∧ (3 : Nat) = 3 :=
  ⟨name_injective_below_twelve.2,
    name_injective_below_twelve.1 3 (by decide) 3 (by decide) rfl⟩

/-- C9: `name` is total on every integer: it always returns
`{color}_{piece}` with a non-empty piece part (`idx % 6` is always in
0..5), colour "white" for every `idx < 6` (negatives included) and
"black" for every `idx ≥ 6`; in particular `name (-1) = "white_pawn"` and
`name 12 = "black_king"`. -/
theorem name_total_on_integers :
    (∀ idx : Int,
        name idx = (if idx < 6 then "white" else "black") ++ "_" ++ pieceOf idx ∧
          pieceOf idx ≠ "") ∧
      name (-1) = "white_pawn" ∧ name 12 = "black_king" := by
  refine ⟨fun idx => ⟨rfl, ?_⟩, by decide, by decide⟩
  have h6 : idx % 6 = 0 ∨ idx % 6 = 1 ∨ idx % 6 = 2 ∨ idx % 6 = 3 ∨
      idx % 6 = 4 ∨ idx % 6 = 5 := by omega
  rcases h6 with h | h | h | h | h | h <;> simp [pieceOf, h]

theorem name_total_on_integers_witness : pieceOf 100 ≠ "" :=
  (name_total_on_integers.1 100).2

/-- C10: with `tiles/` absent and `sprites.png` unopenable, the run fails
having already created the empty `tiles/` directory: the filesystem is
changed even though nothing was written. -/
theorem mkdir_precedes_open :
    run false none = Outcome.mk false true [] := rfl

end SpriteIntoTiles
